import Mathlib

/-
Shallow embedding of the ChemGame browser client (ssVyz/chemgame_vite_react_v1).

The embedded parts are:
  * `src/api/gameClient.ts` — the `GameClient` class: the uniform
    try/catch-wrapped Supabase calls (`ApiResult` results), the auth methods
    `login` / `signUp` / `logout`, the catalogue reads, the RPC actions
    `dispose_resources` / `sell_to_npc`, the five resolver RPCs and
    `runResolvers`.
  * the `GameProvider` context (`GameContext.tsx`) — the catalogue cache
    (`Map<number, _>` per catalogue kind), `loadCatalogues`, the logout
    clear effect, and `refreshAll` with its `lastRefresh` timestamp.
  * `NpcBuyersPage.tsx` — `getPlayerInventory`, `handleSellMax`, `handleSell`.
  * `DashboardPage.tsx` — `handleDispose`.

Asynchrony is modelled by sequential composition (every `await` in the
source is on the immediately preceding call), JS exceptions by
`Except String`, and the observable effect order (Supabase RPC invocations,
`setLastRefresh`, page-local `loadData()` reloads) by an event trace that
every client computation threads through.  A JS `Map` is modelled as an
association list with in-place `set` semantics.
-/

namespace ChemGame

/-- Mirrors `ApiResult<T>` from `src/types/index.ts`:
`{ success: true, data }` or `{ success: false, error }`. -/
inductive ApiResult (α : Type) where
  | ok : α → ApiResult α
  | err : String → ApiResult α
deriving Repr, DecidableEq

/-- Behaviour of one underlying Supabase SDK call, as observed by the
client: a resolved `{ data }` payload, a resolved non-null `{ error }`
object, or a rejected promise (a thrown exception carrying a message). -/
inductive SdkOutcome (α : Type) where
  | data : α → SdkOutcome α
  | sdkError : String → SdkOutcome α
  | thrown : String → SdkOutcome α
deriving Repr, DecidableEq

/-- The `{ data, error }` shape the SDK resolves to when it does not throw. -/
inductive SdkResp (α : Type) where
  | payload : α → SdkResp α
  | errMsg : String → SdkResp α
deriving Repr, DecidableEq

/-- `await` on an SDK call: a rejected promise becomes a JS exception. -/
def sdkCall {α : Type} : SdkOutcome α → Except String (SdkResp α)
  | .data a => .ok (.payload a)
  | .sdkError m => .ok (.errMsg m)
  | .thrown e => .error e

/-- JS `try { body } catch (e) { handler(e) }` for exception-typed values. -/
def tryCatchE {α : Type} (body : Except String α) (handler : String → Except String α) :
    Except String α :=
  match body with
  | .ok a => .ok a
  | .error e => handler e

/-- The body pattern shared by every data-read and RPC method of
`GameClient`:
`try { const { data, error } = await call; if (error) return { success: false,
error: error.message }; return { success: true, data }; } catch (e) { return
{ success: false, error: String(e) }; }`. -/
def apiWrap {α : Type} (o : SdkOutcome α) : Except String (ApiResult α) :=
  tryCatchE
    ((sdkCall o).bind fun r =>
      match r with
      | .payload a => .ok (ApiResult.ok a)
      | .errMsg m => .ok (ApiResult.err m))
    (fun e => .ok (ApiResult.err e))

/-- The `ApiResult` that the `apiWrap` pattern produces for each SDK
outcome. -/
def apiResultOf {α : Type} : SdkOutcome α → ApiResult α
  | .data a => ApiResult.ok a
  | .sdkError m => ApiResult.err m
  | .thrown e => ApiResult.err e

theorem apiWrap_eq {α : Type} (o : SdkOutcome α) :
    apiWrap o = Except.ok (apiResultOf o) := by
  cases o <;> rfl

-- ==========================================================================
-- Record types mirroring src/types/index.ts (the fields the claims touch)
-- ==========================================================================

/-- Mirrors `BuildingCatalogue`. -/
structure BuildingCatalogue where
  building_id : Int
  building_code : String
  building_name : String
  building_cost : Int
  building_space_req : Int
  building_build_time : Int
  building_tech_req : Option Int
deriving Repr, DecidableEq

/-- Mirrors `ProcessCatalogue`. -/
structure ProcessCatalogue where
  proc_id : Int
  proc_code : String
  proc_name : String
  proc_category : String
  proc_install_cost : Int
  proc_install_time : Int
  proc_run_cost : Int
  proc_run_time : Int
  proc_run_pollut : Int
  proc_tech_req : Option Int
deriving Repr, DecidableEq

/-- Mirrors `MaterialCatalogue`. -/
structure MaterialCatalogue where
  res_id : Int
  res_code : String
  res_name : String
  res_phase : String
  res_description_text : Option String
  res_dispose_cost : Option Int
  res_dispose_pollut : Option Int
deriving Repr, DecidableEq

/-- Mirrors `PlayerMaterial`. -/
structure PlayerMaterial where
  res_id : Int
  res_code : String
  amount : Int
deriving Repr, DecidableEq

/-- Mirrors `NpcBuyer`. -/
structure NpcBuyer where
  npc_buyer_id : Int
  npc_buyer_name : String
  buy_res_id : Int
  buy_price : Int
  current_demand : Int
deriving Repr, DecidableEq

/-- A Supabase auth user (only its identity matters to the embedding). -/
structure SupaUser where
  uid : String
deriving Repr, DecidableEq

-- ==========================================================================
-- Event trace and the client computation type
-- ==========================================================================

/-- Observable effects of the client: a `supabase.rpc(name, args)`
invocation, the `setLastRefresh(new Date())` state update in
`GameProvider.refreshAll`, and a page-local `loadData()` re-fetch. -/
inductive TraceEv where
  | rpc : String → List Int → TraceEv
  | setLastRefresh : Int → TraceEv
  | reload : TraceEv
deriving Repr, DecidableEq

/-- A client computation: threads the event trace, may end in a JS
exception.  The trace persists across a throw (a call that was issued
stays issued). -/
def ClientM (α : Type) : Type := List TraceEv → Except String α × List TraceEv

/-- `return` for `ClientM`. -/
def cpure {α : Type} (a : α) : ClientM α := fun tr => (.ok a, tr)

/-- Sequential `await`: the second computation runs only if the first did
not throw. -/
def cbind {α β : Type} (m : ClientM α) (f : α → ClientM β) : ClientM β := fun tr =>
  match m tr with
  | (.ok a, tr') => f a tr'
  | (.error e, tr') => (.error e, tr')

/-- JS `try`/`catch` over a client computation; effects performed before the
throw are kept. -/
def ctryCatch {α : Type} (m : ClientM α) (handler : String → ClientM α) : ClientM α :=
  fun tr =>
    match m tr with
    | (.ok a, tr') => (.ok a, tr')
    | (.error e, tr') => handler e tr'

/-- Backend behaviour for `supabase.rpc` calls: the SDK outcome of each
named remote procedure at given arguments (payload type `Int` covers the
numeric payloads the client reads; it is ignored elsewhere). -/
structure Backend where
  rpcOutcome : String → List Int → SdkOutcome Int

/-- `await supabase.rpc(name, args)`: records the invocation in the trace
and produces the backend's outcome for it. -/
def supabaseRpc (bk : Backend) (nm : String) (args : List Int) : ClientM (SdkResp Int) :=
  fun tr => (sdkCall (bk.rpcOutcome nm args), tr ++ [TraceEv.rpc nm args])

/-- The uniform RPC-method body of `GameClient` (same try/catch pattern as
`apiWrap`, over a `supabase.rpc` call). -/
def rpcWrap (bk : Backend) (nm : String) (args : List Int) : ClientM (ApiResult Int) :=
  ctryCatch
    (cbind (supabaseRpc bk nm args) fun r =>
      match r with
      | .payload a => cpure (ApiResult.ok a)
      | .errMsg m => cpure (ApiResult.err m))
    (fun e => cpure (ApiResult.err e))

theorem rpcWrap_eq (bk : Backend) (nm : String) (args : List Int) (tr : List TraceEv) :
    rpcWrap bk nm args tr =
      (Except.ok (apiResultOf (bk.rpcOutcome nm args)), tr ++ [TraceEv.rpc nm args]) := by
  cases h : bk.rpcOutcome nm args <;>
    simp [rpcWrap, ctryCatch, cbind, cpure, supabaseRpc, sdkCall, apiResultOf, h]

-- ==========================================================================
-- GameClient (src/api/gameClient.ts)
-- ==========================================================================

namespace GameClient

/-- `GameClient.login`: wraps `supabase.auth.signInWithPassword`; an error
yields `{ success: false, error: message }` (the `AuthApiError` branch
returns the same value), a null `data.user` yields a fixed error, a thrown
exception is caught. -/
def login (o : SdkOutcome (Option SupaUser)) : Except String (ApiResult SupaUser) :=
  tryCatchE
    ((sdkCall o).bind fun r =>
      match r with
      | .errMsg m => .ok (ApiResult.err m)
      | .payload none => .ok (ApiResult.err "No user returned from login")
      | .payload (some u) => .ok (ApiResult.ok u))
    (fun e => .ok (ApiResult.err e))

/-- `GameClient.signUp`: same shape as `login` over `supabase.auth.signUp`. -/
def signUp (o : SdkOutcome (Option SupaUser)) : Except String (ApiResult SupaUser) :=
  tryCatchE
    ((sdkCall o).bind fun r =>
      match r with
      | .errMsg m => .ok (ApiResult.err m)
      | .payload none => .ok (ApiResult.err "No user returned from signup")
      | .payload (some u) => .ok (ApiResult.ok u))
    (fun e => .ok (ApiResult.err e))

/-- `GameClient.logout`: `await supabase.auth.signOut();` — no try/catch, no
result value; a resolved `{ error }` is ignored, a rejected promise
propagates to the caller. -/
def logout (o : SdkOutcome Unit) : Except String Unit :=
  (sdkCall o).map fun _ => ()

/-- `GameClient.get_buildings_catalogue`. -/
def get_buildings_catalogue (o : SdkOutcome (List BuildingCatalogue)) :
    Except String (ApiResult (List BuildingCatalogue)) := apiWrap o

/-- `GameClient.get_process_catalogue`. -/
def get_process_catalogue (o : SdkOutcome (List ProcessCatalogue)) :
    Except String (ApiResult (List ProcessCatalogue)) := apiWrap o

/-- `GameClient.get_materials_catalogue`. -/
def get_materials_catalogue (o : SdkOutcome (List MaterialCatalogue)) :
    Except String (ApiResult (List MaterialCatalogue)) := apiWrap o

/-- `GameClient.resolve_scheduled_cash`. -/
def resolve_scheduled_cash (bk : Backend) : ClientM (ApiResult Int) :=
  rpcWrap bk "resolve_scheduled_cash" []

/-- `GameClient.finish_construction`. -/
def finish_construction (bk : Backend) : ClientM (ApiResult Int) :=
  rpcWrap bk "finish_construction" []

/-- `GameClient.finish_storage_extension_construction`. -/
def finish_storage_extension_construction (bk : Backend) : ClientM (ApiResult Int) :=
  rpcWrap bk "finish_storage_extension_construction" []

/-- `GameClient.resolve_building_processes`. -/
def resolve_building_processes (bk : Backend) : ClientM (ApiResult Int) :=
  rpcWrap bk "resolve_building_processes" []

/-- `GameClient.resolve_process_runs`. -/
def resolve_process_runs (bk : Backend) : ClientM (ApiResult Int) :=
  rpcWrap bk "resolve_process_runs" []

/-- `GameClient.dispose_resources(res_id, amount)`:
`supabase.rpc('dispose_resources', { p_res_id, p_amount })`. -/
def dispose_resources (bk : Backend) (res_id amount : Int) : ClientM (ApiResult Int) :=
  rpcWrap bk "dispose_resources" [res_id, amount]

/-- `GameClient.sell_to_npc(npc_buyer_id, amount)`:
`supabase.rpc('sell_to_npc', { p_npc_buyer_id, p_amount })`. -/
def sell_to_npc (bk : Backend) (npc_buyer_id amount : Int) : ClientM (ApiResult Int) :=
  rpcWrap bk "sell_to_npc" [npc_buyer_id, amount]

/-- `GameClient.runResolvers`: awaits the five resolver RPCs one after the
other, discarding their results. -/
def runResolvers (bk : Backend) : ClientM Unit :=
  cbind (resolve_scheduled_cash bk) fun _ =>
  cbind (finish_construction bk) fun _ =>
  cbind (finish_storage_extension_construction bk) fun _ =>
  cbind (resolve_building_processes bk) fun _ =>
  cbind (resolve_process_runs bk) fun _ =>
  cpure ()

end GameClient

/-- The five resolver invocations, in source order, as trace events. -/
def resolverTrace : List TraceEv :=
  [TraceEv.rpc "resolve_scheduled_cash" [],
   TraceEv.rpc "finish_construction" [],
   TraceEv.rpc "finish_storage_extension_construction" [],
   TraceEv.rpc "resolve_building_processes" [],
   TraceEv.rpc "resolve_process_runs" []]

-- ==========================================================================
-- JS Map model (Map<number, T> built by repeated .set, read by .get)
-- ==========================================================================

/-- `Map.set(k, v)`: updates the entry in place when the key is present,
otherwise appends a new entry. -/
def mapSet {α : Type} (m : List (Int × α)) (k : Int) (v : α) : List (Int × α) :=
  if m.any (fun p => p.1 == k) then
    m.map (fun p => if p.1 == k then (k, v) else p)
  else m ++ [(k, v)]

/-- `Map.get(k)`: the value stored under the key, if any. -/
def mapGet {α : Type} : List (Int × α) → Int → Option α
  | [], _ => none
  | p :: t, k => if p.1 == k then some p.2 else mapGet t k

/-- `const map = new Map(); list.forEach(x => map.set(key(x), x))`. -/
def buildMapBy {α : Type} (key : α → Int) (l : List α) : List (Int × α) :=
  l.foldl (fun m x => mapSet m (key x) x) []

theorem mapGet_nil {α : Type} (k : Int) : mapGet ([] : List (Int × α)) k = none := rfl

theorem mapGet_cons_pos {α : Type} (p : Int × α) (t : List (Int × α)) (k : Int)
    (h : (p.1 == k) = true) : mapGet (p :: t) k = some p.2 := by
  unfold mapGet
  rw [if_pos h]

theorem mapGet_cons_neg {α : Type} (p : Int × α) (t : List (Int × α)) (k : Int)
    (h : (p.1 == k) = false) : mapGet (p :: t) k = mapGet t k := by
  have h' : ¬ ((p.1 == k) = true) := by
    intro hc
    rw [h] at hc
    exact Bool.false_ne_true hc
  simp only [mapGet]
  rw [if_neg h']

theorem mapGet_replace_self {α : Type} (m : List (Int × α)) (k : Int) (v : α)
    (hm : m.any (fun p => p.1 == k) = true) :
    mapGet (m.map (fun p => if p.1 == k then (k, v) else p)) k = some v := by
  induction m with
  | nil => simp at hm
  | cons p t ih =>
    by_cases hp : (p.1 == k) = true
    · rw [List.map_cons, if_pos hp, mapGet_cons_pos (k, v) _ k (by simp)]
    · have hp' : (p.1 == k) = false := by simpa using hp
      have ht : t.any (fun q => q.1 == k) = true := by
        simpa [List.any_cons, hp'] using hm
      rw [List.map_cons, if_neg hp, mapGet_cons_neg p _ k hp']
      exact ih ht

theorem mapGet_replace_ne {α : Type} (m : List (Int × α)) (k k' : Int) (v : α)
    (h : k' ≠ k) :
    mapGet (m.map (fun p => if p.1 == k then (k, v) else p)) k' = mapGet m k' := by
  induction m with
  | nil => rfl
  | cons p t ih =>
    by_cases hp : (p.1 == k) = true
    · have hpk : p.1 = k := by simpa using hp
      have h1 : (k == k') = false := by simpa using (Ne.symm h)
      have h2 : (p.1 == k') = false := by rw [hpk]; exact h1
      rw [List.map_cons, if_pos hp, mapGet_cons_neg (k, v) _ k' h1,
        mapGet_cons_neg p t k' h2]
      exact ih
    · rw [List.map_cons, if_neg hp]
      by_cases hq : (p.1 == k') = true
      · rw [mapGet_cons_pos p _ k' hq, mapGet_cons_pos p t k' hq]
      · have hq' : (p.1 == k') = false := by simpa using hq
        rw [mapGet_cons_neg p _ k' hq', mapGet_cons_neg p t k' hq']
        exact ih

theorem mapGet_append_single_self {α : Type} (m : List (Int × α)) (k : Int) (v : α)
    (hm : m.any (fun p => p.1 == k) = false) :
    mapGet (m ++ [(k, v)]) k = some v := by
  induction m with
  | nil => exact mapGet_cons_pos (k, v) [] k (by simp)
  | cons p t ih =>
    have hp : (p.1 == k) = false := by
      by_cases hc : (p.1 == k) = true
      · simp [List.any_cons, hc] at hm
      · simpa using hc
    have ht : t.any (fun q => q.1 == k) = false := by
      simpa [List.any_cons, hp] using hm
    rw [List.cons_append, mapGet_cons_neg p _ k hp]
    exact ih ht

theorem mapGet_append_single_ne {α : Type} (m : List (Int × α)) (k k' : Int) (v : α)
    (h : k' ≠ k) : mapGet (m ++ [(k, v)]) k' = mapGet m k' := by
  induction m with
  | nil =>
    have h1 : (k == k') = false := by simpa using (Ne.symm h)
    rw [List.nil_append, mapGet_cons_neg (k, v) [] k' h1]
  | cons p t ih =>
    by_cases hq : (p.1 == k') = true
    · rw [List.cons_append, mapGet_cons_pos p _ k' hq, mapGet_cons_pos p t k' hq]
    · have hq' : (p.1 == k') = false := by simpa using hq
      rw [List.cons_append, mapGet_cons_neg p _ k' hq', mapGet_cons_neg p t k' hq']
      exact ih

theorem mapGet_mapSet_self {α : Type} (m : List (Int × α)) (k : Int) (v : α) :
    mapGet (mapSet m k v) k = some v := by
  unfold mapSet
  by_cases h : m.any (fun p => p.1 == k) = true
  · rw [if_pos h]; exact mapGet_replace_self m k v h
  · have h' : m.any (fun p => p.1 == k) = false := by
      cases hb : m.any (fun p => p.1 == k) with
      | true => exact absurd hb h
      | false => rfl
    rw [if_neg h]
    exact mapGet_append_single_self m k v h'

theorem mapGet_mapSet_ne {α : Type} (m : List (Int × α)) (k k' : Int) (v : α)
    (h : k' ≠ k) : mapGet (mapSet m k v) k' = mapGet m k' := by
  unfold mapSet
  by_cases hm : m.any (fun p => p.1 == k) = true
  · rw [if_pos hm]; exact mapGet_replace_ne m k k' v h
  · rw [if_neg hm]
    exact mapGet_append_single_ne m k k' v h

theorem mapGet_foldl_of_forall_ne {α : Type} (key : α → Int) (l : List α)
    (m : List (Int × α)) (k : Int) (h : ∀ x ∈ l, key x ≠ k) :
    mapGet (l.foldl (fun m x => mapSet m (key x) x) m) k = mapGet m k := by
  induction l generalizing m with
  | nil => rfl
  | cons x t ih =>
    have hx : key x ≠ k := h x (by simp)
    have ht : ∀ y ∈ t, key y ≠ k := fun y hy => h y (by simp [hy])
    calc mapGet ((x :: t).foldl (fun m x => mapSet m (key x) x) m) k
        = mapGet (t.foldl (fun m x => mapSet m (key x) x) (mapSet m (key x) x)) k := rfl
      _ = mapGet (mapSet m (key x) x) k := ih (mapSet m (key x) x) ht
      _ = mapGet m k := mapGet_mapSet_ne m (key x) k x (fun hc => hx hc.symm)

theorem mapGet_build_of_not_mem {α : Type} (key : α → Int) (l : List α) (k : Int)
    (h : ∀ x ∈ l, key x ≠ k) : mapGet (buildMapBy key l) k = none := by
  unfold buildMapBy
  rw [mapGet_foldl_of_forall_ne key l [] k h]
  rfl

theorem mapGet_foldl_of_mem {α : Type} (key : α → Int) (l : List α)
    (m : List (Int × α)) (k : Int) (x : α)
    (hnd : (l.map key).Nodup) (hx : x ∈ l) (hk : key x = k) :
    mapGet (l.foldl (fun m x => mapSet m (key x) x) m) k = some x := by
  induction l generalizing m with
  | nil => cases hx
  | cons a t ih =>
    rw [List.map_cons, List.nodup_cons] at hnd
    rcases List.mem_cons.mp hx with hax | hxt
    · subst hax
      have ht : ∀ y ∈ t, key y ≠ k := by
        intro y hy hc
        exact hnd.1 (by rw [hk, ← hc]; exact List.mem_map_of_mem key hy)
      calc mapGet ((x :: t).foldl (fun m x => mapSet m (key x) x) m) k
          = mapGet (t.foldl (fun m x => mapSet m (key x) x) (mapSet m (key x) x)) k := rfl
        _ = mapGet (mapSet m (key x) x) k := mapGet_foldl_of_forall_ne key t _ k ht
        _ = some x := by rw [← hk]; exact mapGet_mapSet_self m (key x) x
    · exact ih (mapSet m (key a) a) hnd.2 hxt

theorem mapGet_build_of_mem {α : Type} (key : α → Int) (l : List α) (k : Int) (x : α)
    (hnd : (l.map key).Nodup) (hx : x ∈ l) (hk : key x = k) :
    mapGet (buildMapBy key l) k = some x :=
  mapGet_foldl_of_mem key l [] k x hnd hx hk

-- ==========================================================================
-- GameProvider (GameContext.tsx)
-- ==========================================================================

/-- The `GameProvider` state: the three catalogue `Map`s, the
`cataloguesLoaded` flag and the `lastRefresh` timestamp (a `Date` modelled
as an integer instant, `none` before the first refresh). -/
structure GameState where
  buildingsCatalogue : List (Int × BuildingCatalogue)
  processCatalogue : List (Int × ProcessCatalogue)
  materialsCatalogue : List (Int × MaterialCatalogue)
  cataloguesLoaded : Bool
  lastRefresh : Option Int
deriving Repr, DecidableEq

/-- The initial `GameProvider` state (empty maps, `loaded = false`). -/
def GameState.initial : GameState :=
  { buildingsCatalogue := []
    processCatalogue := []
    materialsCatalogue := []
    cataloguesLoaded := false
    lastRefresh := none }

/-- Backend behaviour for the three catalogue table reads issued by
`loadCatalogues`. -/
structure CatalogueBackend where
  buildings : SdkOutcome (List BuildingCatalogue)
  processes : SdkOutcome (List ProcessCatalogue)
  materials : SdkOutcome (List MaterialCatalogue)

namespace GameProvider

/-- `GameProvider.loadCatalogues`: awaits the three catalogue reads in
order inside one `try`; each successful read replaces the corresponding
`Map` with one rebuilt from the returned rows; then `cataloguesLoaded` is
set.  The `catch` logs `console.error('Failed to load catalogues:', e)`
and ends the function, keeping the state updates made before the throw.
The returned list is the `console.error` output of the invocation. -/
def loadCatalogues (cb : CatalogueBackend) (st : GameState) : GameState × List String :=
  match GameClient.get_buildings_catalogue cb.buildings with
  | .error e => (st, ["Failed to load catalogues: " ++ e])
  | .ok r1 =>
    let st1 := match r1 with
      | .ok l => { st with buildingsCatalogue := buildMapBy (fun b => b.building_id) l }
      | .err _ => st
    match GameClient.get_process_catalogue cb.processes with
    | .error e => (st1, ["Failed to load catalogues: " ++ e])
    | .ok r2 =>
      let st2 := match r2 with
        | .ok l => { st1 with processCatalogue := buildMapBy (fun p => p.proc_id) l }
        | .err _ => st1
      match GameClient.get_materials_catalogue cb.materials with
      | .error e => (st2, ["Failed to load catalogues: " ++ e])
      | .ok r3 =>
        let st3 := match r3 with
          | .ok l => { st2 with materialsCatalogue := buildMapBy (fun m => m.res_id) l }
          | .err _ => st2
        ({ st3 with cataloguesLoaded := true }, [])

/-- The logout branch of the `GameProvider` user effect: sets the three
catalogue `Map`s to `new Map()` and `cataloguesLoaded` to `false`
(`lastRefresh` is not touched). -/
def clearCatalogues (st : GameState) : GameState :=
  { st with
    buildingsCatalogue := []
    processCatalogue := []
    materialsCatalogue := []
    cataloguesLoaded := false }

/-- `GameProvider.refreshAll`: `await gameClient.runResolvers();
setLastRefresh(new Date());` — `now` is the `Date` at the update. -/
def refreshAll (bk : Backend) (now : Int) (st : GameState) : ClientM GameState :=
  cbind (GameClient.runResolvers bk) fun _ =>
    fun tr => (.ok { st with lastRefresh := some now }, tr ++ [TraceEv.setLastRefresh now])

end GameProvider

-- ==========================================================================
-- JS parseInt (radix 10) on the strings the number inputs produce
-- ==========================================================================

/-- Numeric value of a decimal digit character. -/
def digitVal (c : Char) : Int := (c.toNat : Int) - 48

/-- Value of a nonempty run of decimal digits. -/
def parseDigits (cs : List Char) : Int :=
  cs.foldl (fun acc c => acc * 10 + digitVal c) 0

/-- JS `parseInt(s)` (radix 10): skip leading spaces, an optional sign,
then the longest digit run; `none` models `NaN` (no digit found). -/
def parseIntJs (s : String) : Option Int :=
  let cs := s.data.dropWhile (fun c => c == ' ')
  let signed : Bool × List Char :=
    match cs with
    | '-' :: t => (true, t)
    | '+' :: t => (false, t)
    | _ => (false, cs)
  let ds := signed.2.takeWhile (fun c => c.isDigit)
  if ds.isEmpty then none
  else if signed.1 then some (- parseDigits ds) else some (parseDigits ds)

-- ==========================================================================
-- NpcBuyersPage.tsx
-- ==========================================================================

/-- The `{ type: 'success' | 'error' }` discriminator of a status message. -/
inductive StatusKind where
  | success
  | error
deriving Repr, DecidableEq

/-- A `{ type, message }` inline status message. -/
structure StatusMsg where
  kind : StatusKind
  message : String
deriving Repr, DecidableEq

/-- The `NpcBuyersPage` component state the sell handlers touch. -/
structure NpcPageState where
  buyers : List NpcBuyer
  materials : List PlayerMaterial
  selectedBuyer : Option NpcBuyer
  sellAmount : String
  status : Option StatusMsg
deriving Repr, DecidableEq

namespace NpcBuyersPage

/-- `getPlayerInventory(res_id)`: the held amount of the material, `0` when
no stack exists (`mat?.amount || 0`; for integer stack amounts `x || 0`
equals `x` when `x ≠ 0` and `0` otherwise, i.e. `x`). -/
def getPlayerInventory (materials : List PlayerMaterial) (res_id : Int) : Int :=
  match materials.find? (fun m => m.res_id == res_id) with
  | some m => m.amount
  | none => 0

/-- `handleSellMax`: with no buyer selected sets an error status; otherwise
sets the sell-amount field to
`String(Math.min(playerAmount, selectedBuyer.current_demand))`. -/
def handleSellMax (st : NpcPageState) : NpcPageState :=
  match st.selectedBuyer with
  | none =>
    { st with status := some ⟨StatusKind.error, "Please select a buyer first"⟩ }
  | some b =>
    let playerAmount := getPlayerInventory st.materials b.buy_res_id
    let maxSellable := min playerAmount b.current_demand
    { st with sellAmount := toString maxSellable }

/-- A page-local `loadData()` re-fetch, recorded as a trace event. -/
def loadDataEv : ClientM Unit := fun tr => (.ok (), tr ++ [TraceEv.reload])

/-- The display name of a material: catalogue `res_name`, or
`Material <id>` when the catalogue misses. -/
def materialName (matCat : List (Int × MaterialCatalogue)) (res_id : Int) : String :=
  match mapGet matCat res_id with
  | some info => info.res_name
  | none => "Material " ++ toString res_id

/-- `handleSell`: validates (buyer selected; parsed amount a positive
integer; amount within `current_demand`; amount within the player's
inventory), asks for confirmation (`confirmOk` is the `window.confirm`
answer), then issues `sell_to_npc` and on success sets a success status
and re-fetches via `loadData()`. -/
def handleSell (bk : Backend) (confirmOk : Bool)
    (matCat : List (Int × MaterialCatalogue)) (st : NpcPageState) :
    ClientM NpcPageState :=
  match st.selectedBuyer with
  | none =>
    cpure { st with
      status := some (StatusMsg.mk StatusKind.error "Please select a buyer from the list above") }
  | some b =>
    match parseIntJs st.sellAmount with
    | none =>
      cpure { st with
        status := some (StatusMsg.mk StatusKind.error "Please enter a valid positive amount") }
    | some a =>
      if a ≤ 0 then
        cpure { st with
          status := some (StatusMsg.mk StatusKind.error "Please enter a valid positive amount") }
      else if b.current_demand < a then
        cpure { st with
          status := some ⟨StatusKind.error,
            "Amount (" ++ toString a ++ ") exceeds current demand ("
              ++ toString b.current_demand ++ ")"⟩ }
      else
        let playerAmount := getPlayerInventory st.materials b.buy_res_id
        if playerAmount < a then
          cpure { st with
            status := some ⟨StatusKind.error,
              "You do not have enough material (have: "
                ++ toString playerAmount ++ ")"⟩ }
        else if confirmOk = false then
          cpure st
        else
          cbind (GameClient.sell_to_npc bk b.npc_buyer_id a) fun r =>
            match r with
            | .ok cashEarned =>
              cbind loadDataEv fun _ =>
                cpure { st with
                  status := some ⟨StatusKind.success,
                    "Sold " ++ toString a ++ "x "
                      ++ materialName matCat b.buy_res_id
                      ++ ". Earned: " ++ toString cashEarned ++ " cash"⟩ }
            | .err e =>
              cpure { st with
                status := some ⟨StatusKind.error, "Failed to sell: " ++ e⟩ }

/-- The guard `handleSell` enforces before issuing the RPC: a buyer is
selected and the parsed amount is a positive integer within both the
buyer's `current_demand` and the player's inventory of the buyer's
material. -/
def sellInputValid (st : NpcPageState) : Bool :=
  match st.selectedBuyer with
  | none => false
  | some b =>
    match parseIntJs st.sellAmount with
    | none => false
    | some a =>
      if 0 < a ∧ a ≤ b.current_demand
          ∧ a ≤ getPlayerInventory st.materials b.buy_res_id
      then true else false

end NpcBuyersPage

-- ==========================================================================
-- DashboardPage.tsx
-- ==========================================================================

/-- The `DashboardPage` component state the dispose handler touches. -/
structure DashState where
  materials : List PlayerMaterial
  selectedMaterial : Option PlayerMaterial
  disposeAmount : String
  disposeStatus : Option StatusMsg
deriving Repr, DecidableEq

namespace DashboardPage

/-- `handleDispose`: validates (a material selected; parsed amount a
positive integer; amount within the held stack), asks for confirmation,
then issues `dispose_resources(res_id, amount)` and on success sets a
success status, clears the selection and re-fetches via `loadData()`. -/
def handleDispose (bk : Backend) (confirmOk : Bool)
    (matCat : List (Int × MaterialCatalogue)) (st : DashState) :
    ClientM DashState :=
  match st.selectedMaterial with
  | none =>
    cpure { st with
      disposeStatus := some ⟨StatusKind.error, "Please select a material to dispose"⟩ }
  | some m =>
    match parseIntJs st.disposeAmount with
    | none =>
      cpure { st with
        disposeStatus := some (StatusMsg.mk StatusKind.error "Please enter a valid positive amount") }
    | some a =>
      if a ≤ 0 then
        cpure { st with
          disposeStatus := some (StatusMsg.mk StatusKind.error "Please enter a valid positive amount") }
      else if m.amount < a then
        cpure { st with
          disposeStatus := some ⟨StatusKind.error,
            "Cannot dispose more than you have (" ++ toString m.amount ++ ")"⟩ }
      else if confirmOk = false then
        cpure st
      else
        cbind (GameClient.dispose_resources bk m.res_id a) fun r =>
          match r with
          | .ok _ =>
            cbind NpcBuyersPage.loadDataEv fun _ =>
              cpure { st with
                disposeStatus := some ⟨StatusKind.success,
                  "Disposed " ++ toString a ++ "x "
                    ++ NpcBuyersPage.materialName matCat m.res_id⟩,
                selectedMaterial := none }
          | .err e =>
            cpure { st with
              disposeStatus := some ⟨StatusKind.error, "Failed to dispose: " ++ e⟩ }

end DashboardPage

/-- The extra trace a success result produces: the `loadData()` re-fetch
that follows a successful RPC. -/
def reloadIfData (o : SdkOutcome Int) : List TraceEv :=
  match o with
  | .data _ => [TraceEv.reload]
  | .sdkError _ => []
  | .thrown _ => []

-- ==========================================================================
-- Closed forms of the orchestrator operations
-- ==========================================================================

theorem runResolvers_run (bk : Backend) (tr : List TraceEv) :
    GameClient.runResolvers bk tr = (Except.ok (), tr ++ resolverTrace) := by
  unfold GameClient.runResolvers GameClient.resolve_scheduled_cash
    GameClient.finish_construction GameClient.finish_storage_extension_construction
    GameClient.resolve_building_processes GameClient.resolve_process_runs
  simp only [cbind, rpcWrap_eq, cpure, resolverTrace, List.append_assoc,
    List.singleton_append, List.cons_append, List.nil_append]

/-- What each successful catalogue read replaces the buildings `Map` with. -/
def updBuildings (o : SdkOutcome (List BuildingCatalogue))
    (old : List (Int × BuildingCatalogue)) : List (Int × BuildingCatalogue) :=
  match o with
  | .data l => buildMapBy (fun b => b.building_id) l
  | .sdkError _ => old
  | .thrown _ => old

/-- What each successful catalogue read replaces the process `Map` with. -/
def updProcesses (o : SdkOutcome (List ProcessCatalogue))
    (old : List (Int × ProcessCatalogue)) : List (Int × ProcessCatalogue) :=
  match o with
  | .data l => buildMapBy (fun p => p.proc_id) l
  | .sdkError _ => old
  | .thrown _ => old

/-- What each successful catalogue read replaces the materials `Map` with. -/
def updMaterials (o : SdkOutcome (List MaterialCatalogue))
    (old : List (Int × MaterialCatalogue)) : List (Int × MaterialCatalogue) :=
  match o with
  | .data l => buildMapBy (fun m => m.res_id) l
  | .sdkError _ => old
  | .thrown _ => old

theorem loadCatalogues_run (cb : CatalogueBackend) (st : GameState) :
    GameProvider.loadCatalogues cb st =
      ({ buildingsCatalogue := updBuildings cb.buildings st.buildingsCatalogue
         processCatalogue := updProcesses cb.processes st.processCatalogue
         materialsCatalogue := updMaterials cb.materials st.materialsCatalogue
         cataloguesLoaded := true
         lastRefresh := st.lastRefresh }, []) := by
  unfold GameProvider.loadCatalogues GameClient.get_buildings_catalogue
    GameClient.get_process_catalogue GameClient.get_materials_catalogue
  cases hb : cb.buildings <;> cases hp : cb.processes <;> cases hm : cb.materials <;>
    simp [apiWrap, tryCatchE, sdkCall, Except.bind, updBuildings, updProcesses,
      updMaterials]

-- ==========================================================================
-- C1 and C2: the refresh orchestrator
-- ==========================================================================

/-- C1: every invocation of `GameClient.runResolvers` (the body of
`refreshAll`) invokes the five resolver RPCs sequentially and strictly in
the order `resolve_scheduled_cash`, `finish_construction`,
`finish_storage_extension_construction`, `resolve_building_processes`,
`resolve_process_runs`, for every backend behaviour — in particular a
failure result (error or thrown SDK exception) at any step does not
prevent the remaining steps: the emitted RPC trace is always exactly the
five calls in this order, and the computation always completes. -/
theorem runResolvers_fixed_order (bk : Backend) (tr : List TraceEv) :
    GameClient.runResolvers bk tr =
      (Except.ok (),
       tr ++ [TraceEv.rpc "resolve_scheduled_cash" [],
              TraceEv.rpc "finish_construction" [],
              TraceEv.rpc "finish_storage_extension_construction" [],
              TraceEv.rpc "resolve_building_processes" [],
              TraceEv.rpc "resolve_process_runs" []]) :=
  runResolvers_run bk tr

/-- C2: every invocation of `GameProvider.refreshAll` updates the shared
`lastRefresh` timestamp exactly once — the trace it emits contains exactly
one `setLastRefresh` event, placed after all five resolver invocations —
and this holds for every backend behaviour, including one where every
resolver call fails; the resulting state carries the new timestamp. -/
theorem refreshAll_timestamp_once (bk : Backend) (now : Int) (st : GameState)
    (tr : List TraceEv) :
    GameProvider.refreshAll bk now st tr =
      (Except.ok { st with lastRefresh := some now },
       tr ++ resolverTrace ++ [TraceEv.setLastRefresh now]) := by
  unfold GameProvider.refreshAll
  simp only [cbind, runResolvers_run]

-- ==========================================================================
-- C6: the logout clear effect
-- ==========================================================================

/-- C6: after the logout clear effect, every lookup misses in all three
catalogue `Map`s (for any id, cached before or not) and
`cataloguesLoaded` is `false`. -/
theorem clearCatalogues_get_none (st : GameState) (id : Int) :
    mapGet (GameProvider.clearCatalogues st).buildingsCatalogue id = none ∧
    mapGet (GameProvider.clearCatalogues st).processCatalogue id = none ∧
    mapGet (GameProvider.clearCatalogues st).materialsCatalogue id = none ∧
    (GameProvider.clearCatalogues st).cataloguesLoaded = false :=
  ⟨rfl, rfl, rfl, rfl⟩

-- ==========================================================================
-- C7: the propagation policy of the game-client boundary
-- ==========================================================================

/-- C7 counterexample: `GameClient.logout` is a remote call of the game
client (an authentication method), yet when the underlying SDK sign-out
call throws, the exception propagates past the game-client boundary (and
no uniform success/error result is returned), contradicting the claim
that every remote call returns a uniform result and never throws. -/
theorem logout_throws_past_boundary :
    GameClient.logout (SdkOutcome.thrown "network error") =
      Except.error "network error" := rfl

/-- C7 amended: every data-fetching method (the `apiWrap` pattern) and
every RPC action (the `rpcWrap` pattern), as well as `login` and
`signUp`, return a uniform `ApiResult` and never throw past the
game-client boundary, for every SDK behaviour; `logout`, however, returns
no result and propagates a thrown SDK exception to its caller. -/
theorem gameClient_propagation_policy :
    (∀ (α : Type) (o : SdkOutcome α), apiWrap o = Except.ok (apiResultOf o)) ∧
    (∀ (bk : Backend) (nm : String) (args : List Int) (tr : List TraceEv),
      rpcWrap bk nm args tr =
        (Except.ok (apiResultOf (bk.rpcOutcome nm args)), tr ++ [TraceEv.rpc nm args])) ∧
    (∀ (o : SdkOutcome (Option SupaUser)), ∃ r, GameClient.login o = Except.ok r) ∧
    (∀ (o : SdkOutcome (Option SupaUser)), ∃ r, GameClient.signUp o = Except.ok r) ∧
    (∀ (e : String), GameClient.logout (SdkOutcome.thrown e) = Except.error e) := by
  refine ⟨fun α o => apiWrap_eq o, rpcWrap_eq, fun o => ?_, fun o => ?_, fun e => rfl⟩
  · cases o with
    | data u => cases u with
      | none => exact ⟨ApiResult.err "No user returned from login", rfl⟩
      | some u => exact ⟨ApiResult.ok u, rfl⟩
    | sdkError m => exact ⟨ApiResult.err m, rfl⟩
    | thrown e => exact ⟨ApiResult.err e, rfl⟩
  · cases o with
    | data u => cases u with
      | none => exact ⟨ApiResult.err "No user returned from signup", rfl⟩
      | some u => exact ⟨ApiResult.ok u, rfl⟩
    | sdkError m => exact ⟨ApiResult.err m, rfl⟩
    | thrown e => exact ⟨ApiResult.err e, rfl⟩

-- ==========================================================================
-- C3, C4, C5: the catalogue cache
-- ==========================================================================

/-- C3: for every catalogue kind, after `loadCatalogues` resolves, a
lookup for any id present in the last successful read of that kind
returns exactly the entry the backend returned for that id (ids are
unique per catalogue read), and a lookup for any id the backend never
returned yields `none` without throwing (`mapGet` is total). -/
theorem loadCatalogues_get_correct :
    (∀ (cb : CatalogueBackend) (st : GameState) (l : List BuildingCatalogue)
        (b : BuildingCatalogue) (id : Int),
      cb.buildings = SdkOutcome.data l →
      (l.map (fun x => x.building_id)).Nodup → b ∈ l → b.building_id = id →
      mapGet (GameProvider.loadCatalogues cb st).1.buildingsCatalogue id = some b) ∧
    (∀ (cb : CatalogueBackend) (st : GameState) (l : List BuildingCatalogue) (id : Int),
      cb.buildings = SdkOutcome.data l → (∀ b ∈ l, b.building_id ≠ id) →
      mapGet (GameProvider.loadCatalogues cb st).1.buildingsCatalogue id = none) ∧
    (∀ (cb : CatalogueBackend) (st : GameState) (l : List ProcessCatalogue)
        (p : ProcessCatalogue) (id : Int),
      cb.processes = SdkOutcome.data l →
      (l.map (fun x => x.proc_id)).Nodup → p ∈ l → p.proc_id = id →
      mapGet (GameProvider.loadCatalogues cb st).1.processCatalogue id = some p) ∧
    (∀ (cb : CatalogueBackend) (st : GameState) (l : List ProcessCatalogue) (id : Int),
      cb.processes = SdkOutcome.data l → (∀ p ∈ l, p.proc_id ≠ id) →
      mapGet (GameProvider.loadCatalogues cb st).1.processCatalogue id = none) ∧
    (∀ (cb : CatalogueBackend) (st : GameState) (l : List MaterialCatalogue)
        (m : MaterialCatalogue) (id : Int),
      cb.materials = SdkOutcome.data l →
      (l.map (fun x => x.res_id)).Nodup → m ∈ l → m.res_id = id →
      mapGet (GameProvider.loadCatalogues cb st).1.materialsCatalogue id = some m) ∧
    (∀ (cb : CatalogueBackend) (st : GameState) (l : List MaterialCatalogue) (id : Int),
      cb.materials = SdkOutcome.data l → (∀ m ∈ l, m.res_id ≠ id) →
      mapGet (GameProvider.loadCatalogues cb st).1.materialsCatalogue id = none) := by
  refine ⟨?_, ?_, ?_, ?_, ?_, ?_⟩
  · intro cb st l b id hdata hnd hb hk
    rw [loadCatalogues_run]
    dsimp only
    rw [hdata]
    exact mapGet_build_of_mem _ l id b hnd hb hk
  · intro cb st l id hdata habs
    rw [loadCatalogues_run]
    dsimp only
    rw [hdata]
    exact mapGet_build_of_not_mem _ l id habs
  · intro cb st l p id hdata hnd hp hk
    rw [loadCatalogues_run]
    dsimp only
    rw [hdata]
    exact mapGet_build_of_mem _ l id p hnd hp hk
  · intro cb st l id hdata habs
    rw [loadCatalogues_run]
    dsimp only
    rw [hdata]
    exact mapGet_build_of_not_mem _ l id habs
  · intro cb st l m id hdata hnd hm hk
    rw [loadCatalogues_run]
    dsimp only
    rw [hdata]
    exact mapGet_build_of_mem _ l id m hnd hm hk
  · intro cb st l id hdata habs
    rw [loadCatalogues_run]
    dsimp only
    rw [hdata]
    exact mapGet_build_of_not_mem _ l id habs

/-- A concrete building-catalogue row used by the witnesses. -/
def bCat1 : BuildingCatalogue :=
  { building_id := 1, building_code := "B1", building_name := "Mine"
    building_cost := 100, building_space_req := 2, building_build_time := 3
    building_tech_req := none }

/-- A concrete process-catalogue row used by the witnesses. -/
def pCat4 : ProcessCatalogue :=
  { proc_id := 4, proc_code := "P4", proc_name := "Smelt", proc_category := "basic"
    proc_install_cost := 10, proc_install_time := 1, proc_run_cost := 2
    proc_run_time := 3, proc_run_pollut := 1, proc_tech_req := none }

/-- A concrete material-catalogue row used by the witnesses (res_id 7,
named Sulfur, as in the spec scenario). -/
def mCat7 : MaterialCatalogue :=
  { res_id := 7, res_code := "S", res_name := "Sulfur", res_phase := "dry"
    res_description_text := none, res_dispose_cost := some 2
    res_dispose_pollut := some 1 }

/-- A backend whose three catalogue reads all succeed. -/
def cbAllOk : CatalogueBackend :=
  { buildings := SdkOutcome.data [bCat1]
    processes := SdkOutcome.data [pCat4]
    materials := SdkOutcome.data [mCat7] }

theorem loadCatalogues_get_correct_witness :
    mapGet (GameProvider.loadCatalogues cbAllOk GameState.initial).1.buildingsCatalogue 1
        = some bCat1 ∧
    mapGet (GameProvider.loadCatalogues cbAllOk GameState.initial).1.buildingsCatalogue 2
        = none ∧
    mapGet (GameProvider.loadCatalogues cbAllOk GameState.initial).1.processCatalogue 4
        = some pCat4 ∧
    mapGet (GameProvider.loadCatalogues cbAllOk GameState.initial).1.processCatalogue 5
        = none ∧
    mapGet (GameProvider.loadCatalogues cbAllOk GameState.initial).1.materialsCatalogue 7
        = some mCat7 ∧
    mapGet (GameProvider.loadCatalogues cbAllOk GameState.initial).1.materialsCatalogue 8
        = none :=
  ⟨loadCatalogues_get_correct.1 cbAllOk GameState.initial [bCat1] bCat1 1 rfl
      (by decide) (by decide) rfl,
   loadCatalogues_get_correct.2.1 cbAllOk GameState.initial [bCat1] 2 rfl (by decide),
   loadCatalogues_get_correct.2.2.1 cbAllOk GameState.initial [pCat4] pCat4 4 rfl
      (by decide) (by decide) rfl,
   loadCatalogues_get_correct.2.2.2.1 cbAllOk GameState.initial [pCat4] 5 rfl (by decide),
   loadCatalogues_get_correct.2.2.2.2.1 cbAllOk GameState.initial [mCat7] mCat7 7 rfl
      (by decide) (by decide) rfl,
   loadCatalogues_get_correct.2.2.2.2.2 cbAllOk GameState.initial [mCat7] 8 rfl (by decide)⟩

/-- C4: calling `loadCatalogues` twice in succession (both reads of a kind
succeeding) leaves that kind's cache equal to the second read alone: an
id present in the first read but absent from the second no longer
resolves after the second load — replacement, not merge. -/
theorem loadCatalogues_twice_replaces :
    (∀ (cb1 cb2 : CatalogueBackend) (st : GameState)
        (l1 l2 : List BuildingCatalogue) (id : Int),
      cb1.buildings = SdkOutcome.data l1 → cb2.buildings = SdkOutcome.data l2 →
      (∃ b ∈ l1, b.building_id = id) → (∀ b ∈ l2, b.building_id ≠ id) →
      mapGet (GameProvider.loadCatalogues cb2
        (GameProvider.loadCatalogues cb1 st).1).1.buildingsCatalogue id = none) ∧
    (∀ (cb1 cb2 : CatalogueBackend) (st : GameState)
        (l1 l2 : List ProcessCatalogue) (id : Int),
      cb1.processes = SdkOutcome.data l1 → cb2.processes = SdkOutcome.data l2 →
      (∃ p ∈ l1, p.proc_id = id) → (∀ p ∈ l2, p.proc_id ≠ id) →
      mapGet (GameProvider.loadCatalogues cb2
        (GameProvider.loadCatalogues cb1 st).1).1.processCatalogue id = none) ∧
    (∀ (cb1 cb2 : CatalogueBackend) (st : GameState)
        (l1 l2 : List MaterialCatalogue) (id : Int),
      cb1.materials = SdkOutcome.data l1 → cb2.materials = SdkOutcome.data l2 →
      (∃ m ∈ l1, m.res_id = id) → (∀ m ∈ l2, m.res_id ≠ id) →
      mapGet (GameProvider.loadCatalogues cb2
        (GameProvider.loadCatalogues cb1 st).1).1.materialsCatalogue id = none) := by
  refine ⟨?_, ?_, ?_⟩
  · intro cb1 cb2 st l1 l2 id h1 h2 hpresent habs
    rw [loadCatalogues_run]
    dsimp only
    rw [h2]
    exact mapGet_build_of_not_mem _ l2 id habs
  · intro cb1 cb2 st l1 l2 id h1 h2 hpresent habs
    rw [loadCatalogues_run]
    dsimp only
    rw [h2]
    exact mapGet_build_of_not_mem _ l2 id habs
  · intro cb1 cb2 st l1 l2 id h1 h2 hpresent habs
    rw [loadCatalogues_run]
    dsimp only
    rw [h2]
    exact mapGet_build_of_not_mem _ l2 id habs

/-- The disjoint second-read rows used by the C4 witness. -/
def bCat9 : BuildingCatalogue :=
  { bCat1 with building_id := 9, building_code := "B9" }

/-- Second-read process row for the C4 witness. -/
def pCat9 : ProcessCatalogue :=
  { pCat4 with proc_id := 9, proc_code := "P9" }

/-- Second-read material row for the C4 witness. -/
def mCat9 : MaterialCatalogue :=
  { mCat7 with res_id := 9, res_code := "M9" }

/-- A backend serving the disjoint second catalogue. -/
def cbSecond : CatalogueBackend :=
  { buildings := SdkOutcome.data [bCat9]
    processes := SdkOutcome.data [pCat9]
    materials := SdkOutcome.data [mCat9] }

theorem loadCatalogues_twice_replaces_witness :
    mapGet (GameProvider.loadCatalogues cbSecond
      (GameProvider.loadCatalogues cbAllOk GameState.initial).1).1.buildingsCatalogue 1
        = none ∧
    mapGet (GameProvider.loadCatalogues cbSecond
      (GameProvider.loadCatalogues cbAllOk GameState.initial).1).1.processCatalogue 4
        = none ∧
    mapGet (GameProvider.loadCatalogues cbSecond
      (GameProvider.loadCatalogues cbAllOk GameState.initial).1).1.materialsCatalogue 7
        = none :=
  ⟨loadCatalogues_twice_replaces.1 cbAllOk cbSecond GameState.initial [bCat1] [bCat9] 1
      rfl rfl ⟨bCat1, by decide, rfl⟩ (by decide),
   loadCatalogues_twice_replaces.2.1 cbAllOk cbSecond GameState.initial [pCat4] [pCat9] 4
      rfl rfl ⟨pCat4, by decide, rfl⟩ (by decide),
   loadCatalogues_twice_replaces.2.2 cbAllOk cbSecond GameState.initial [mCat7] [mCat9] 7
      rfl rfl ⟨mCat7, by decide, rfl⟩ (by decide)⟩

/-- Does an SDK outcome represent a failed read (error result or thrown)? -/
def sdkFails {α : Type} : SdkOutcome α → Bool
  | .data _ => false
  | .sdkError _ => true
  | .thrown _ => true

/-- A backend whose buildings read fails while the other two succeed. -/
def cbFailB : CatalogueBackend :=
  { buildings := SdkOutcome.sdkError "relation unavailable"
    processes := SdkOutcome.data [pCat4]
    materials := SdkOutcome.data [mCat7] }

/-- C5 counterexample: a `loadCatalogues` invocation in which the
buildings read fails leaves the failing catalogue's mapping at its
previous value (empty on first load) and still sets `cataloguesLoaded`,
but logs NOTHING — the `console.error` output of the invocation is empty,
contradicting the claim that each such failure is logged (the only
logging site is the `catch` handler, and a failed read result does not
throw). -/
theorem loadCatalogues_failure_unlogged :
    (GameProvider.loadCatalogues cbFailB GameState.initial).2 = [] ∧
    (GameProvider.loadCatalogues cbFailB GameState.initial).1.cataloguesLoaded = true ∧
    (GameProvider.loadCatalogues cbFailB GameState.initial).1.buildingsCatalogue = [] :=
  ⟨rfl, rfl, rfl⟩

/-- C5 amended: when some of the three catalogue reads fail, each failing
catalogue's mapping is left at its previous value (empty on first load)
and `cataloguesLoaded` is still set to `true`; the failures are NOT
logged — the invocation's `console.error` output is always empty, because
the read methods never throw and the `catch` block is the only logging
site. -/
theorem loadCatalogues_partial_failure (cb : CatalogueBackend) (st : GameState) :
    (GameProvider.loadCatalogues cb st).2 = [] ∧
    (GameProvider.loadCatalogues cb st).1.cataloguesLoaded = true ∧
    (sdkFails cb.buildings = true →
      (GameProvider.loadCatalogues cb st).1.buildingsCatalogue = st.buildingsCatalogue) ∧
    (sdkFails cb.processes = true →
      (GameProvider.loadCatalogues cb st).1.processCatalogue = st.processCatalogue) ∧
    (sdkFails cb.materials = true →
      (GameProvider.loadCatalogues cb st).1.materialsCatalogue = st.materialsCatalogue) := by
  rw [loadCatalogues_run]
  refine ⟨rfl, rfl, ?_, ?_, ?_⟩
  · intro hf
    cases h : cb.buildings with
    | data l => rw [h] at hf; simp [sdkFails] at hf
    | sdkError m => rfl
    | thrown e => rfl
  · intro hf
    cases h : cb.processes with
    | data l => rw [h] at hf; simp [sdkFails] at hf
    | sdkError m => rfl
    | thrown e => rfl
  · intro hf
    cases h : cb.materials with
    | data l => rw [h] at hf; simp [sdkFails] at hf
    | sdkError m => rfl
    | thrown e => rfl

/-- A backend on which all three catalogue reads fail. -/
def cbAllFail : CatalogueBackend :=
  { buildings := SdkOutcome.sdkError "boom-b"
    processes := SdkOutcome.thrown "boom-p"
    materials := SdkOutcome.sdkError "boom-m" }

theorem loadCatalogues_partial_failure_witness :
    (GameProvider.loadCatalogues cbAllFail GameState.initial).2 = [] ∧
    (GameProvider.loadCatalogues cbAllFail GameState.initial).1.cataloguesLoaded = true ∧
    (GameProvider.loadCatalogues cbAllFail GameState.initial).1.buildingsCatalogue
        = GameState.initial.buildingsCatalogue ∧
    (GameProvider.loadCatalogues cbAllFail GameState.initial).1.processCatalogue
        = GameState.initial.processCatalogue ∧
    (GameProvider.loadCatalogues cbAllFail GameState.initial).1.materialsCatalogue
        = GameState.initial.materialsCatalogue :=
  ⟨(loadCatalogues_partial_failure cbAllFail GameState.initial).1,
   (loadCatalogues_partial_failure cbAllFail GameState.initial).2.1,
   (loadCatalogues_partial_failure cbAllFail GameState.initial).2.2.1 rfl,
   (loadCatalogues_partial_failure cbAllFail GameState.initial).2.2.2.1 rfl,
   (loadCatalogues_partial_failure cbAllFail GameState.initial).2.2.2.2 rfl⟩

-- ==========================================================================
-- C8: the Sell Max button
-- ==========================================================================

/-- C8: with a buyer selected, `handleSellMax` sets the sell-amount field
to the string of the minimum of the buyer's `current_demand` and the
player's inventory of the buyer's material (`getPlayerInventory`, which
yields `0` when the player holds no stack of that material). -/
theorem handleSellMax_sets_min (st : NpcPageState) (b : NpcBuyer)
    (h : st.selectedBuyer = some b) :
    (NpcBuyersPage.handleSellMax st).sellAmount =
      toString (min b.current_demand
        (NpcBuyersPage.getPlayerInventory st.materials b.buy_res_id)) := by
  unfold NpcBuyersPage.handleSellMax
  rw [h]
  dsimp only
  rw [min_comm]

/-- The buyer of the witness scenario: `current_demand = 30`, buying
material 7. -/
def buyerW : NpcBuyer :=
  { npc_buyer_id := 3, npc_buyer_name := "Acme", buy_res_id := 7
    buy_price := 5, current_demand := 30 }

/-- The player's stack of material 7 in the witness scenario: 100 units. -/
def stack7of100 : PlayerMaterial := { res_id := 7, res_code := "S", amount := 100 }

/-- NPC page state of the witness scenario: buyer selected, inventory 100. -/
def npcStW : NpcPageState :=
  { buyers := [buyerW], materials := [stack7of100]
    selectedBuyer := some buyerW, sellAmount := "1", status := none }

theorem handleSellMax_sets_min_witness :
    (NpcBuyersPage.handleSellMax npcStW).sellAmount = "30" := by
  rw [handleSellMax_sets_min npcStW buyerW rfl]
  decide

-- ==========================================================================
-- C9: the dispose handler
-- ==========================================================================

/-- C9: with a material stack selected, a parsed amount that is positive
and at most the held amount, and the user confirming, `handleDispose`
invokes the `dispose_resources` RPC with exactly the stack's `res_id` and
the parsed amount, and on a success result triggers a local reload of
player data and materials (`loadData()`); on a failure result no reload
happens. -/
theorem handleDispose_invokes_rpc (bk : Backend)
    (matCat : List (Int × MaterialCatalogue)) (st : DashState)
    (m : PlayerMaterial) (a : Int) (tr : List TraceEv)
    (hsel : st.selectedMaterial = some m)
    (hparse : parseIntJs st.disposeAmount = some a)
    (hpos : 0 < a) (hle : a ≤ m.amount) :
    (DashboardPage.handleDispose bk true matCat st tr).2 =
      tr ++ TraceEv.rpc "dispose_resources" [m.res_id, a] ::
        reloadIfData (bk.rpcOutcome "dispose_resources" [m.res_id, a]) := by
  unfold DashboardPage.handleDispose
  rw [hsel, hparse]
  dsimp only
  rw [if_neg (not_le.mpr hpos), if_neg (not_lt.mpr hle),
    if_neg (by simp : ¬ (true = false))]
  cases h : bk.rpcOutcome "dispose_resources" [m.res_id, a] with
  | data v =>
    simp [GameClient.dispose_resources, cbind, rpcWrap_eq, h, apiResultOf,
      NpcBuyersPage.loadDataEv, cpure, reloadIfData, List.append_assoc]
  | sdkError msg =>
    simp [GameClient.dispose_resources, cbind, rpcWrap_eq, h, apiResultOf,
      cpure, reloadIfData, List.append_assoc]
  | thrown e =>
    simp [GameClient.dispose_resources, cbind, rpcWrap_eq, h, apiResultOf,
      cpure, reloadIfData, List.append_assoc]

/-- A backend on which every RPC succeeds with payload 0. -/
def bkOk : Backend := { rpcOutcome := fun _ _ => SdkOutcome.data 0 }

/-- The player's stack of material 7 in the dispose scenario: 50 units. -/
def stack7of50 : PlayerMaterial := { res_id := 7, res_code := "S", amount := 50 }

/-- Dashboard state of the dispose scenario: stack selected, amount "10". -/
def dashStW : DashState :=
  { materials := [stack7of50], selectedMaterial := some stack7of50
    disposeAmount := "10", disposeStatus := none }

theorem handleDispose_invokes_rpc_witness :
    (DashboardPage.handleDispose bkOk true [] dashStW []).2 =
      [TraceEv.rpc "dispose_resources" [7, 10], TraceEv.reload] := by
  have h := handleDispose_invokes_rpc bkOk [] dashStW stack7of50 10 []
    rfl (by decide) (by decide) (by decide)
  simpa [reloadIfData] using h

-- ==========================================================================
-- C10: the sell handler's validation guard
-- ==========================================================================

/-- C10: when the guard fails (no buyer selected, or the parsed amount is
not a positive integer within the buyer's `current_demand` and the
player's inventory of the buyer's material), `handleSell` makes no RPC
call (the trace is unchanged), sets an inline error status, and leaves
the sale-relevant state (selection, amount field, materials) unchanged;
hence the `sell_to_npc` RPC is issued only when the guard holds. -/
theorem handleSell_guarded (bk : Backend) (confirmOk : Bool)
    (matCat : List (Int × MaterialCatalogue)) (st : NpcPageState) (tr : List TraceEv)
    (h : NpcBuyersPage.sellInputValid st = false) :
    ∃ st' : NpcPageState,
      NpcBuyersPage.handleSell bk confirmOk matCat st tr = (Except.ok st', tr) ∧
      (∃ msg, st'.status = some (StatusMsg.mk StatusKind.error msg)) ∧
      st'.selectedBuyer = st.selectedBuyer ∧
      st'.sellAmount = st.sellAmount ∧
      st'.materials = st.materials := by
  cases hsel : st.selectedBuyer with
  | none =>
    refine ⟨{ st with status := some (StatusMsg.mk StatusKind.error "Please select a buyer from the list above") }, ?_, ⟨_, rfl⟩, hsel, rfl, rfl⟩
    unfold NpcBuyersPage.handleSell
    rw [hsel]
    rfl
  | some b =>
    unfold NpcBuyersPage.sellInputValid at h
    rw [hsel] at h
    cases hparse : parseIntJs st.sellAmount with
    | none =>
      refine ⟨{ st with status := some (StatusMsg.mk StatusKind.error "Please enter a valid positive amount") }, ?_, ⟨_, rfl⟩, hsel, rfl, rfl⟩
      unfold NpcBuyersPage.handleSell
      rw [hsel, hparse]
      rfl
    | some a =>
      rw [hparse] at h
      dsimp only at h
      have hcond : ¬ (0 < a ∧ a ≤ b.current_demand
          ∧ a ≤ NpcBuyersPage.getPlayerInventory st.materials b.buy_res_id) := by
        intro hc
        rw [if_pos hc] at h
        exact Bool.false_ne_true h.symm
      by_cases h1 : a ≤ 0
      · refine ⟨{ st with status := some (StatusMsg.mk StatusKind.error "Please enter a valid positive amount") }, ?_, ⟨_, rfl⟩, hsel, rfl, rfl⟩
        unfold NpcBuyersPage.handleSell
        rw [hsel, hparse]
        dsimp only
        rw [if_pos h1]
        rfl
      · have hpos : 0 < a := not_le.mp h1
        by_cases h2 : b.current_demand < a
        · refine ⟨{ st with status := some (StatusMsg.mk StatusKind.error ("Amount (" ++ toString a ++ ") exceeds current demand (" ++ toString b.current_demand ++ ")")) }, ?_, ⟨_, rfl⟩, hsel, rfl, rfl⟩
          unfold NpcBuyersPage.handleSell
          rw [hsel, hparse]
          dsimp only
          rw [if_neg h1, if_pos h2]
          rfl
        · have h3 : NpcBuyersPage.getPlayerInventory st.materials b.buy_res_id < a := by
            by_contra hc
            exact hcond ⟨hpos, not_lt.mp h2, not_lt.mp hc⟩
          refine ⟨{ st with status := some (StatusMsg.mk StatusKind.error ("You do not have enough material (have: " ++ toString (NpcBuyersPage.getPlayerInventory st.materials b.buy_res_id) ++ ")")) }, ?_, ⟨_, rfl⟩, hsel, rfl, rfl⟩
          unfold NpcBuyersPage.handleSell
          rw [hsel, hparse]
          dsimp only
          rw [if_neg h1, if_neg h2, if_pos h3]
          rfl

/-- NPC page state with no buyer selected, for the C10 witness. -/
def npcStInvalid : NpcPageState :=
  { buyers := [], materials := [], selectedBuyer := none
    sellAmount := "1", status := none }

theorem handleSell_guarded_witness :
    ∃ st' : NpcPageState,
      NpcBuyersPage.handleSell bkOk true [] npcStInvalid [] = (Except.ok st', []) ∧
      (∃ msg, st'.status = some (StatusMsg.mk StatusKind.error msg)) ∧
      st'.selectedBuyer = none ∧
      st'.sellAmount = "1" ∧
      st'.materials = [] :=
  handleSell_guarded bkOk true [] npcStInvalid [] rfl

end ChemGame
